import Mathlib

/-!
Formal model of the antenna tracker motion controller and of the rotator
protocol server: the per-axis trapezoidal velocity profile, move execution,
homing, the two-axis coordinator state, the configuration parser, and the
EasyComm2 / rotctld command dispatcher.  Theorems below check the documented
behaviour of each component against this model.

Conventions of the shallow embedding: Python floats are modelled as exact
rationals, and as reals where a square root is taken; Python `int(x)` is
truncation toward zero; operations that raise in Python (division by zero)
return `Option`; the per-step reads of the cancellation event
(`threading.Event`) are modelled by a `stopAt : Nat -> Bool` oracle, constant
when no concurrent `stop()` call happens during the move.
-/

namespace Station

/-- Configuration record for one axis, mirroring `AxisConfig` in
`controller.py`.  The numeric fields are rationals because the YAML loader
does not enforce the dataclass annotations. -/
structure AxisConfig where
  gear_ratio : ℚ
  steps_per_rev : ℚ
  microstepping : ℚ
  min_angle : ℚ
  max_angle : ℚ
  max_speed : ℚ
  acceleration : ℚ
  step_pin : ℕ
  dir_pin : ℕ
  enable_pin : ℕ
  home_switch_pin : ℕ
  home_offset : ℚ
  encoder_i2c_address : ℕ
  encoder_i2c_bus : ℕ
  deriving DecidableEq

/-- Derived microsteps per degree:
`steps_per_rev * microstepping * gear_ratio / 360.0`. -/
def stepsPerDegree (c : AxisConfig) : ℚ :=
  c.steps_per_rev * c.microstepping * c.gear_ratio / 360

/-- Reciprocal of `stepsPerDegree`.  Python float division raises
`ZeroDivisionError` on a zero denominator, modelled as `none`. -/
def degreesPerStep (c : AxisConfig) : Option ℚ :=
  if stepsPerDegree c = 0 then none else some (1 / stepsPerDegree c)

/-- Resolution in arc seconds, `degrees_per_step * 3600`; inherits the
possible division by zero from `degreesPerStep`. -/
def resolutionArcsec (c : AxisConfig) : Option ℚ :=
  (degreesPerStep c).map (fun d => d * 3600)

/-- Raw per-axis configuration values as read from the YAML dictionary. -/
structure RawAxisConfig where
  gear_ratio : ℚ
  steps_per_rev : ℚ
  microstepping : ℚ
  min_angle : ℚ
  max_angle : ℚ
  max_speed : ℚ
  acceleration : ℚ
  step_pin : ℕ
  dir_pin : ℕ
  enable_pin : ℕ
  home_switch_pin : ℕ
  home_offset : ℚ
  encoder_i2c_address : ℕ
  encoder_i2c_bus : ℕ
  deriving DecidableEq

/-- `AntennaTracker._parse_axis_config`: repackages the raw dictionary values
into an `AxisConfig` field by field.  The source contains no validation of
any kind; this function is total and never rejects an input. -/
def parseAxisConfig (r : RawAxisConfig) : AxisConfig :=
  { gear_ratio := r.gear_ratio
    steps_per_rev := r.steps_per_rev
    microstepping := r.microstepping
    min_angle := r.min_angle
    max_angle := r.max_angle
    max_speed := r.max_speed
    acceleration := r.acceleration
    step_pin := r.step_pin
    dir_pin := r.dir_pin
    enable_pin := r.enable_pin
    home_switch_pin := r.home_switch_pin
    home_offset := r.home_offset
    encoder_i2c_address := r.encoder_i2c_address
    encoder_i2c_bus := r.encoder_i2c_bus }

/-- Python `int(x)` applied to a number: truncation toward zero. -/
def pyInt (q : ℚ) : ℤ := if 0 ≤ q then ⌊q⌋ else ⌈q⌉

/-- Target clamping in `move_to`:
`max(min_angle, min(max_angle, target_deg))`. -/
def clampAngle (c : AxisConfig) (deg : ℚ) : ℚ :=
  max c.min_angle (min c.max_angle deg)

/-- Conversion of a target angle to an absolute step count,
`int(target_deg * steps_per_degree)` in `_execute_move` (and the analogous
expression in `home`). -/
def targetSteps (c : AxisConfig) (deg : ℚ) : ℤ :=
  pyInt (deg * stepsPerDegree c)

/-- `max_speed_sps = max_speed * steps_per_degree` (steps per second). -/
def maxSpeedSps (c : AxisConfig) : ℚ := c.max_speed * stepsPerDegree c

/-- `accel_sps2 = acceleration * steps_per_degree` (steps per second squared). -/
def accelSps2 (c : AxisConfig) : ℚ := c.acceleration * stepsPerDegree c

/-- `accel_steps = int(max_speed_sps ** 2 / (2 * accel_sps2))`: steps needed
to accelerate to full speed, before the triangular-profile clamp. -/
def accelStepsRaw (c : AxisConfig) : ℤ :=
  pyInt (maxSpeedSps c ^ 2 / (2 * accelSps2 c))

/-- The clamp `if accel_steps > total_steps // 2: accel_steps =
total_steps // 2` applied to `accelStepsRaw`. -/
def accelSteps (c : AxisConfig) (total : ℕ) : ℤ :=
  if accelStepsRaw c > ((total / 2 : ℕ) : ℤ) then ((total / 2 : ℕ) : ℤ)
  else accelStepsRaw c

/-- `decel_start = total_steps - accel_steps`. -/
def decelStart (c : AxisConfig) (total : ℕ) : ℤ :=
  (total : ℤ) - accelSteps c total

/-- The loop's initial speed `current_speed = max(accel_sps2 * 0.01, 100)`,
used on steps reached before any ramp assignment overwrites it. -/
def startSpeed (c : AxisConfig) : ℚ :=
  max (accelSps2 c * (1 / 100)) 100

/-- Ramp-up speed written for `step_num = i < accel_steps`:
`min(sqrt(2 * accel_sps2 * (step_num + 1)), max_speed_sps)`. -/
noncomputable def rampSpeed (c : AxisConfig) (i : ℕ) : ℝ :=
  min (Real.sqrt (2 * (accelSps2 c : ℝ) * ((i : ℝ) + 1))) ((maxSpeedSps c : ℝ))

/-- Ramp-down speed written for `step_num = i >= decel_start`:
`max(sqrt(2 * accel_sps2 * (total_steps - step_num)), 100)`. -/
noncomputable def decelSpeed (c : AxisConfig) (total i : ℕ) : ℝ :=
  max (Real.sqrt (2 * (accelSps2 c : ℝ) * ((total : ℝ) - (i : ℝ)))) 100

/-- Instantaneous speed used for step `i` of a move of `total` steps,
mirroring the `current_speed` variable of the step loop in `_execute_move`:
overwritten by the ramp formula in the first region, by the deceleration
formula in the last region, and otherwise carried over from the previous
iteration (initially `startSpeed`). -/
noncomputable def speedAt (c : AxisConfig) (total : ℕ) : ℕ → ℝ
  | 0 =>
    if (0 : ℤ) < accelSteps c total then rampSpeed c 0
    else if decelStart c total ≤ 0 then decelSpeed c total 0
    else ((startSpeed c : ℚ) : ℝ)
  | i + 1 =>
    if ((i : ℤ) + 1) < accelSteps c total then rampSpeed c (i + 1)
    else if decelStart c total ≤ (i : ℤ) + 1 then decelSpeed c total (i + 1)
    else speedAt c total i

/-- Closed form of the carried-over speed on the constant region: the value
reached by the last ramp-up assignment, or the initial speed when the ramp is
empty. -/
noncomputable def plateauSpeed (c : AxisConfig) (total : ℕ) : ℝ :=
  if accelSteps c total = 0 then ((startSpeed c : ℚ) : ℝ)
  else min (Real.sqrt (2 * (accelSps2 c : ℝ) * ((accelSteps c total : ℤ) : ℝ)))
    ((maxSpeedSps c : ℝ))

/-- Per-step delay `delay = 1.0 / current_speed`. -/
noncomputable def delayAt (c : AxisConfig) (total i : ℕ) : ℝ :=
  1 / speedAt c total i

/-- The whole per-move delay table, one entry per executed step. -/
noncomputable def delayProfile (c : AxisConfig) (total : ℕ) : List ℝ :=
  (List.range total).map (delayAt c total)

/-- Modelled from the spec: the spec's ramp-length formula
`ramp_steps = (max_step_speed^2 - start_speed^2) / (2 * accel_steps_s2)`,
floored at 1 and clamped to half the move, with `start_speed = 100`.
Stated for comparison with `accelSteps`, which is what the code computes. -/
def specRampSteps (c : AxisConfig) (total : ℕ) : ℤ :=
  min (max 1 (pyInt ((maxSpeedSps c ^ 2 - 100 ^ 2) / (2 * accelSps2 c))))
    ((total / 2 : ℕ) : ℤ)

/-- Modelled from the spec: the spec's ramp-up speed at ramp index `i`,
`sqrt(start_speed^2 + 2 * accel_steps_s2 * i)` clamped to `max_step_speed`,
with `start_speed = 100`.  Stated for comparison with `speedAt`. -/
noncomputable def specRampSpeedAt (c : AxisConfig) (i : ℕ) : ℝ :=
  min (Real.sqrt (100 ^ 2 + 2 * (accelSps2 c : ℝ) * (i : ℝ)))
    ((maxSpeedSps c : ℝ))

/-- Mutable per-axis state: the authoritative step position and the
cancellation flag (`self._stop_event`). -/
structure AxisState where
  position_steps : ℤ
  stop_set : Bool
  deriving DecidableEq

/-- `StepperAxis.stop()`: sets the cancellation flag (and blocks until the
move loop exits; the blocking part has no effect on the state). -/
def stopAxis (s : AxisState) : AxisState :=
  { s with stop_set := true }

/-- The step loop of `_execute_move`: at iteration `i` it first checks the
cancellation event and breaks if set, otherwise emits one pulse and moves the
position by `sign`.  Returns the final position and the number of pulses
emitted. -/
def moveLoop (stopAt : ℕ → Bool) (sign : ℤ) : ℤ → ℕ → ℕ → ℤ × ℕ
  | pos, _i, 0 => (pos, 0)
  | pos, i, n + 1 =>
    if stopAt i then (pos, 0)
    else
      let r := moveLoop stopAt sign (pos + sign) (i + 1) n
      (r.1, r.2 + 1)

/-- Result of `_execute_move`: final position, pulses emitted, and the list
of levels passed to `_set_direction` (at most one per move). -/
structure MoveResult where
  pos : ℤ
  pulses : ℕ
  dirWrites : List Bool
  deriving DecidableEq

/-- `StepperAxis._execute_move`: computes the signed step delta against the
current position, returns immediately when it is zero, otherwise writes the
direction once (`delta_steps > 0`), waits the settling delay, and runs the
step loop for `abs(delta_steps)` iterations. -/
def executeMove (c : AxisConfig) (stopAt : ℕ → Bool) (pos : ℤ) (target_deg : ℚ) :
    MoveResult :=
  let ts := targetSteps c target_deg
  let delta := ts - pos
  if delta = 0 then ⟨pos, 0, []⟩
  else
    let sign : ℤ := if 0 < delta then 1 else -1
    let r := moveLoop stopAt sign pos 0 delta.natAbs
    ⟨r.1, r.2, [decide (0 < delta)]⟩

/-- Result of a `move_to` call: the axis state after the move (position and
cancellation flag), plus the pulse count and direction writes of the move. -/
structure MoveOutcome where
  axis : AxisState
  pulses : ℕ
  dirWrites : List Bool
  deriving DecidableEq

/-- `StepperAxis.move_to`: clamps the target into `[min_angle, max_angle]`.
When `blocking` it runs `_execute_move` on the calling thread with the
cancellation event in its current state; when non-blocking it first clears
the event and then runs the move (on a worker thread; the outcome modelled
here is the completed run, absent concurrent `stop()` calls). -/
def moveTo (c : AxisConfig) (s : AxisState) (target_deg : ℚ) (blocking : Bool) :
    MoveOutcome :=
  let tgt := clampAngle c target_deg
  if blocking then
    let r := executeMove c (fun _ => s.stop_set) s.position_steps tgt
    ⟨⟨r.pos, s.stop_set⟩, r.pulses, r.dirWrites⟩
  else
    let r := executeMove c (fun _ => false) s.position_steps tgt
    ⟨⟨r.pos, false⟩, r.pulses, r.dirWrites⟩

/-- Result of `home`: the boolean success value, the final position, and the
number of search steps taken (pulses emitted while looking for the switch). -/
structure HomeResult where
  ok : Bool
  pos : ℤ
  searchSteps : ℕ
  deriving DecidableEq

/-- The search loop of `home`: each iteration checks the cancellation event
(returning failure), then reads the home switch through the oracle `switch`
(level 0 means triggered: back off and set the position to
`int(home_offset * steps_per_degree)`), and otherwise emits one search pulse,
decrementing the position.  Exhausting the budget returns failure. -/
def homeLoop (c : AxisConfig) (stopAt : ℕ → Bool) (switch : ℕ → ℤ) :
    ℤ → ℕ → ℕ → HomeResult
  | pos, _i, 0 => ⟨false, pos, 0⟩
  | pos, i, n + 1 =>
    if stopAt i then ⟨false, pos, 0⟩
    else if switch i = 0 then ⟨true, targetSteps c c.home_offset, 0⟩
    else
      let r := homeLoop c stopAt switch (pos - 1) (i + 1) n
      ⟨r.ok, r.pos, r.searchSteps + 1⟩

/-- `max_home_steps = int(max_angle * steps_per_degree * 1.1)`. -/
def maxHomeSteps (c : AxisConfig) : ℤ :=
  pyInt (c.max_angle * stepsPerDegree c * (11 / 10))

/-- `StepperAxis.home()`: runs the search loop for at most `maxHomeSteps`
iterations, with the cancellation event in its current state and the switch
read through the oracle. -/
def axisHome (c : AxisConfig) (s : AxisState) (switch : ℕ → ℤ) : HomeResult :=
  homeLoop c (fun _ => s.stop_set) switch s.position_steps 0 (maxHomeSteps c).toNat

/-- Python truthiness of `not n` for an int `n`, coerced back to a pin level
(True writes the pin high). -/
def pyNot (n : ℕ) : ℕ := if n = 0 then 1 else 0

/-- Level written to the direction pin by `_set_direction(forward)` on the
pigpio backend: `val = 1 if forward else 0`, then `pi.write(dir_pin, val)`. -/
def pigpioDirLevel (forward : Bool) : ℕ :=
  if forward then 1 else 0

/-- Level written to the direction pin by `_set_direction(forward)` on the
RPi.GPIO fallback: `GPIO.output(dir_pin, val if forward else not val)` with
`val = 1 if forward else 0`. -/
def gpioDirLevel (forward : Bool) : ℕ :=
  let val : ℕ := if forward then 1 else 0
  if forward then val else pyNot val

/-- Coordinator bookkeeping, mirroring `TrackerState`. -/
structure TrackerState where
  az_position : ℚ := 0
  el_position : ℚ := 0
  az_target : ℚ := 0
  el_target : ℚ := 0
  is_tracking : Bool := false
  is_slewing : Bool := false
  is_homed : Bool := false
  is_parked : Bool := false
  motors_enabled : Bool := false
  deriving DecidableEq

/-- Position in degrees derived from the step count,
`position_steps / steps_per_degree` (total division; the zero-denominator
case is covered by the configuration theorems and does not arise in the
coordinator claims). -/
def posDegrees (c : AxisConfig) (steps : ℤ) : ℚ :=
  (steps : ℚ) / stepsPerDegree c

/-- Static coordinator configuration: the two axis configurations and the
park position. -/
structure TrackerCfg where
  azCfg : AxisConfig
  elCfg : AxisConfig
  park_azimuth : ℚ
  park_elevation : ℚ
  deriving DecidableEq

/-- The whole tracker: configuration, the two axis states, and the derived
coordinator state. -/
structure Tracker where
  cfg : TrackerCfg
  az : AxisState
  el : AxisState
  st : TrackerState
  deriving DecidableEq

/-- `AntennaTracker._update_state()`: recomputes the degree positions from
the axis step counts. -/
def updateState (t : Tracker) : Tracker :=
  { t with st := { t.st with
      az_position := posDegrees t.cfg.azCfg t.az.position_steps
      el_position := posDegrees t.cfg.elCfg t.el.position_steps } }

/-- `AntennaTracker.goto(az, el)`: records the targets, sets `is_slewing`,
issues a non-blocking `move_to` on each axis, joins both, clears
`is_slewing` and refreshes the derived positions.  No other state field is
touched. -/
def trackerGoto (t : Tracker) (az el : ℚ) : Tracker :=
  let t1 : Tracker :=
    { t with st := { t.st with az_target := az, el_target := el, is_slewing := true } }
  let azR := moveTo t1.cfg.azCfg t1.az az false
  let elR := moveTo t1.cfg.elCfg t1.el el false
  updateState
    { t1 with
      az := azR.axis
      el := elR.axis
      st := { t1.st with is_slewing := false } }

/-- `AntennaTracker.stop_tracking()` as it affects the state: clears
`is_tracking`. -/
def stopTracking (t : Tracker) : Tracker :=
  { t with st := { t.st with is_tracking := false } }

/-- `AntennaTracker.park()`: stops tracking, slews to the configured park
position, disables the motors, and sets `is_parked`. -/
def trackerPark (t : Tracker) : Tracker :=
  let t1 := trackerGoto (stopTracking t) t.cfg.park_azimuth t.cfg.park_elevation
  { t1 with st := { t1.st with motors_enabled := false, is_parked := true } }

/-- Result of the coordinator `home()`: return value, resulting tracker, and
whether the azimuth axis homing was attempted at all. -/
structure TrackerHomeResult where
  ok : Bool
  t : Tracker
  azAttempted : Bool
  deriving DecidableEq

/-- `AntennaTracker.home()`: enables the motors, homes elevation first and
returns `false` at once when it fails (azimuth is then never attempted),
then homes azimuth, and only when both succeeded sets `is_homed` and
refreshes the state. -/
def trackerHome (t : Tracker) (elSwitch azSwitch : ℕ → ℤ) : TrackerHomeResult :=
  let t0 : Tracker := { t with st := { t.st with motors_enabled := true } }
  let elR := axisHome t0.cfg.elCfg t0.el elSwitch
  if elR.ok = false then
    ⟨false, { t0 with el := { t0.el with position_steps := elR.pos } }, false⟩
  else
    let t1 : Tracker := { t0 with el := { t0.el with position_steps := elR.pos } }
    let azR := axisHome t1.cfg.azCfg t1.az azSwitch
    if azR.ok = false then
      ⟨false, { t1 with az := { t1.az with position_steps := azR.pos } }, true⟩
    else
      let t2 : Tracker := { t1 with az := { t1.az with position_steps := azR.pos } }
      ⟨true, updateState { t2 with st := { t2.st with is_homed := true } }, true⟩

/-- Python whitespace set used by `str.strip()`. -/
def isSpaceChar (ch : Char) : Bool :=
  ch == ' ' || ch == '\t' || ch == '\n' || ch == '\r' || ch == '\x0b' || ch == '\x0c'

/-- Python `str.strip()` for the whitespace default. -/
def pyStrip (s : String) : String :=
  String.mk (((s.toList.dropWhile isSpaceChar).reverse.dropWhile isSpaceChar).reverse)

/-- Cons-by-cons test that the first list is an initial segment of the
second. -/
def listIsPre : List Char → List Char → Bool
  | [], _ => true
  | _ :: _, [] => false
  | a :: as, b :: bs => a == b && listIsPre as bs

/-- Python `s.startswith(pat)`. -/
def strStarts (s pat : String) : Bool :=
  listIsPre pat.toList s.toList

/-- Python `str.split()` restricted to blanks: split on spaces and drop the
empty pieces. -/
def pySplit (s : String) : List String :=
  (s.splitOn " ").filter (fun p => p != "")

/-- Substring test, Python `pat in s`. -/
def strHasSub (s pat : String) : Bool :=
  (List.range (s.toList.length + 1)).any
    (fun k => ((s.toList.drop k).take pat.toList.length) == pat.toList)

/-- Value of a nonempty digit string. -/
def digitsToNat (l : List Char) : ℕ :=
  l.foldl (fun a c => a * 10 + (c.toNat - 48)) 0

/-- Unsigned decimal part of Python `float()`: digits with an optional
single decimal point (the exponent and special forms accepted by Python are
not needed by any command modelled here). -/
def parseUnsigned (s : String) : Option ℚ :=
  match s.splitOn "." with
  | [ip] =>
    if ip.length > 0 && ip.toList.all Char.isDigit then
      some ((digitsToNat ip.toList : ℚ))
    else none
  | [ip, fp] =>
    if (ip.length > 0 || fp.length > 0) && ip.toList.all Char.isDigit
        && fp.toList.all Char.isDigit then
      some ((digitsToNat ip.toList : ℚ)
        + (digitsToNat fp.toList : ℚ) / (10 ^ fp.length : ℚ))
    else none
  | _ => none

/-- Python `float()` on a command argument, `none` when it would raise
`ValueError`. -/
def parseFloat (s : String) : Option ℚ :=
  let t := pyStrip s
  match t.toList with
  | '-' :: r => (parseUnsigned (String.mk r)).map (fun q => -q)
  | '+' :: r => parseUnsigned (String.mk r)
  | _ => parseUnsigned t

/-- Left-pads a digit string with zeros to the given width. -/
def padZeros (s : String) (n : ℕ) : String :=
  if s.length < n then String.mk (List.replicate (n - s.length) '0') ++ s else s

/-- Fixed-point rendering with one decimal digit, modelling the format
`"%.1f"` (rounding half away from zero rather than the exact float
rounding; no claim depends on the tie cases). -/
def fmt1 (q : ℚ) : String :=
  let n : ℤ := if 0 ≤ q then ⌊q * 10 + 1 / 2⌋ else -⌊-q * 10 + 1 / 2⌋
  let sgn := if n < 0 then "-" else ""
  let m := n.natAbs
  sgn ++ toString (m / 10) ++ "." ++ toString (m % 10)

/-- Fixed-point rendering with six decimal digits, modelling `"%.6f"`. -/
def fmt6 (q : ℚ) : String :=
  let n : ℤ := if 0 ≤ q then ⌊q * 1000000 + 1 / 2⌋ else -⌊-q * 1000000 + 1 / 2⌋
  let sgn := if n < 0 then "-" else ""
  let m := n.natAbs
  sgn ++ toString (m / 1000000) ++ "." ++ padZeros (toString (m % 1000000)) 6

/-- The `for part in parts` scan of the EasyComm2 position branch: parts
starting with AZ or EL and carrying a nonempty value are parsed (the last
occurrence wins); a parse failure aborts the whole branch with the
`ValueError` path. -/
def scanAzEl : List String → Option ℚ → Option ℚ → Except Unit (Option ℚ × Option ℚ)
  | [], a, e => Except.ok (a, e)
  | p :: rest, a, e =>
    if strStarts p "AZ" then
      let val := p.drop 2
      if val != "" then
        match parseFloat val with
        | some q => scanAzEl rest (some q) e
        | none => Except.error ()
      else scanAzEl rest a e
    else if strStarts p "EL" then
      let val := p.drop 2
      if val != "" then
        match parseFloat val with
        | some q => scanAzEl rest a (some q)
        | none => Except.error ()
      else scanAzEl rest a e
    else scanAzEl rest a e

/-- Side effect a command has on the tracker. -/
inductive Effect where
  | noEff : Effect
  | gotoEff : ℚ → ℚ → Effect
  | stopEff : Effect
  | closeEff : Effect
  deriving DecidableEq

/-- Result of `_handle_command`: the optional response line(s) (`none` only
when the connection is being closed) and the tracker-side effect. -/
structure CmdResult where
  response : Option String
  effect : Effect
  deriving DecidableEq

/-- The capability dump sent for `1` / `dump_state`. -/
def dumpStateText : String :=
  "0\n2\n0\n0.0 360.0\n0.0 90.0\n0\n"

/-- `RotatorProtocol._handle_command`, given the current tracker position:
the dispatch chain of the source, in order. -/
def handleCommand (pos : ℚ × ℚ) (cmd0 : String) : CmdResult :=
  let cmd := pyStrip cmd0
  if strStarts cmd "AZ" && strHasSub cmd "EL" then
    match scanAzEl (pySplit cmd) none none with
    | Except.error _ => ⟨some "RPRT -1", Effect.noEff⟩
    | Except.ok (some az, some el) => ⟨some "RPRT 0", Effect.gotoEff az el⟩
    | Except.ok (_, _) =>
      ⟨some ("AZ" ++ fmt1 pos.1 ++ " EL" ++ fmt1 pos.2), Effect.noEff⟩
  else if cmd == "AZ" || cmd == "AZ EL" || cmd == "IP" then
    ⟨some ("AZ" ++ fmt1 pos.1 ++ " EL" ++ fmt1 pos.2), Effect.noEff⟩
  else if cmd == "SA" || cmd == "SE" || cmd == "SA SE" then
    ⟨some "RPRT 0", Effect.stopEff⟩
  else if cmd == "VE" then
    ⟨some "space-station-rotator v1.0", Effect.noEff⟩
  else if cmd == "p" || cmd == "\\get_pos" then
    ⟨some (fmt6 pos.1 ++ "\n" ++ fmt6 pos.2), Effect.noEff⟩
  else if strStarts cmd "P " || strStarts cmd "\\set_pos " then
    match pySplit cmd with
    | _ :: a :: e :: _ =>
      match parseFloat a, parseFloat e with
      | some az, some el => ⟨some "RPRT 0", Effect.gotoEff az el⟩
      | _, _ => ⟨some "RPRT -1", Effect.noEff⟩
    | _ => ⟨some "RPRT -1", Effect.noEff⟩
  else if cmd == "S" || cmd == "\\stop" then
    ⟨some "RPRT 0", Effect.stopEff⟩
  else if cmd == "_" || cmd == "\\get_info" then
    ⟨some "space-station-rotator", Effect.noEff⟩
  else if cmd == "1" || cmd == "\\dump_state" then
    ⟨some dumpStateText, Effect.noEff⟩
  else if cmd == "q" || cmd == "\\quit" then
    ⟨none, Effect.closeEff⟩
  else
    ⟨some "RPRT -4", Effect.noEff⟩

/-- Modelled from the spec: the dispatch patterns enumerated by the spec's
table (AZ/EL set and query, SA/SE stops, VE, p and get_pos, P and set_pos,
S and stop, q and quit).  Stated for comparison with the guards actually
present in `handleCommand`. -/
def matchesListed (cmd : String) : Bool :=
  (strStarts cmd "AZ" && strHasSub cmd "EL")
  || cmd == "AZ" || cmd == "AZ EL" || cmd == "IP"
  || cmd == "SA" || cmd == "SE" || cmd == "SA SE"
  || cmd == "VE"
  || cmd == "p" || cmd == "\\get_pos"
  || strStarts cmd "P " || strStarts cmd "\\set_pos "
  || cmd == "S" || cmd == "\\stop"
  || cmd == "q" || cmd == "\\quit"

/-- Every guard of the dispatch chain of `handleCommand`, in source order:
the spec's table plus the info and capability-dump commands also handled by
the source. -/
def matchesCode (cmd : String) : Bool :=
  matchesListed cmd
  || cmd == "_" || cmd == "\\get_info"
  || cmd == "1" || cmd == "\\dump_state"

/-- Unit-scale test configuration: one microstep per degree. -/
def cfgUnit : AxisConfig :=
  { gear_ratio := 1
    steps_per_rev := 360
    microstepping := 1
    min_angle := 0
    max_angle := 360
    max_speed := 100
    acceleration := 1
    step_pin := 1
    dir_pin := 2
    enable_pin := 3
    home_switch_pin := 4
    home_offset := 0
    encoder_i2c_address := 54
    encoder_i2c_bus := 1 }

/-- Like `cfgUnit` but with a low maximum speed, giving a short ramp and a
long constant region. -/
def cfgSlow : AxisConfig :=
  { cfgUnit with max_speed := 3 }

/-- Like `cfgUnit` but with a tiny travel range, giving a two-step homing
budget. -/
def cfgTiny : AxisConfig :=
  { cfgUnit with max_angle := 2 }

/-- An axis at position zero with the cancellation flag clear. -/
def axisStart : AxisState := ⟨0, false⟩

/-- A small concrete tracker used by the coordinator theorems. -/
def tracker0 : Tracker :=
  { cfg := { azCfg := cfgTiny, elCfg := cfgTiny, park_azimuth := 1, park_elevation := 1 }
    az := axisStart
    el := axisStart
    st := {} }

/-- A raw configuration with a zero gear ratio and the other mechanical
parameters nonzero. -/
def badRaw : RawAxisConfig :=
  { gear_ratio := 0
    steps_per_rev := 200
    microstepping := 16
    min_angle := 0
    max_angle := 90
    max_speed := 5
    acceleration := 2
    step_pin := 1
    dir_pin := 2
    enable_pin := 3
    home_switch_pin := 4
    home_offset := 0
    encoder_i2c_address := 54
    encoder_i2c_bus := 1 }

/-- C4.  The direction level actually driven onto the pin: on the pigpio
backend `_set_direction` writes the sign-derived level, but on the RPi.GPIO
fallback the expression `val if forward else not val` evaluates `not 0` to
`True`, so the pin is driven high for both directions and the backward
direction is never asserted. -/
theorem c4_gpio_direction_bug :
    gpioDirLevel true = 1 ∧ gpioDirLevel false = 1
    ∧ pigpioDirLevel true = 1 ∧ pigpioDirLevel false = 0 := by
  decide

/-- C9 counterexample.  `_parse_axis_config` accepts a configuration with a
zero gear ratio without any rejection, the constructed axis has
`steps_per_degree = 0`, and both `degrees_per_step` and `resolution_arcsec`
are divisions by zero (which raise at first use), contradicting the claim
that validation rejects such configurations at startup. -/
theorem c9_no_validation_cex :
    stepsPerDegree (parseAxisConfig badRaw) = 0
    ∧ degreesPerStep (parseAxisConfig badRaw) = none
    ∧ resolutionArcsec (parseAxisConfig badRaw) = none := by
  refine ⟨?_, ?_, ?_⟩ <;> norm_num [stepsPerDegree, degreesPerStep,
    resolutionArcsec, parseAxisConfig, badRaw]

/-- C9 amended.  The parser performs no validation, so an axis is
constructed for every raw configuration; the constructed axis has
`steps_per_degree = 0` exactly when the gear ratio, the steps-per-revolution
or the microstepping is zero, and in exactly that case the
`degrees_per_step` computation is a division by zero (raising
`ZeroDivisionError` the first time it is evaluated, which happens while the
axis constructor logs the resolution, so the process still dies at startup,
but with an unhandled exception rather than a validation error). -/
theorem c9_zero_config (r : RawAxisConfig) :
    (stepsPerDegree (parseAxisConfig r) = 0 ↔
      r.steps_per_rev = 0 ∨ r.microstepping = 0 ∨ r.gear_ratio = 0)
    ∧ (degreesPerStep (parseAxisConfig r) = none ↔
      stepsPerDegree (parseAxisConfig r) = 0)
    ∧ (resolutionArcsec (parseAxisConfig r) = none ↔
      stepsPerDegree (parseAxisConfig r) = 0) := by
  refine ⟨?_, ?_, ?_⟩
  · rw [stepsPerDegree, parseAxisConfig]
    rw [div_eq_zero_iff, mul_eq_zero, mul_eq_zero]
    norm_num
    tauto
  · rw [degreesPerStep]
    split_ifs with h <;> simp [h]
  · rw [resolutionArcsec, degreesPerStep]
    split_ifs with h <;> simp [h]

/-- C7 counterexample.  After `park()` the flag `is_parked` is true, and it
is still true after a subsequent `goto`, contradicting the claim that any
subsequent `goto` clears it. -/
theorem c7_goto_keeps_parked_cex :
    (trackerPark tracker0).st.is_parked = true
    ∧ (trackerGoto (trackerPark tracker0) 2 1).st.is_parked = true := by
  exact ⟨rfl, rfl⟩

/-- C7 amended.  `park()` does set `is_parked`, but `goto` never touches the
flag: `is_parked` after any `goto` equals its value before, so it stays true
after the tracker slews away from the park position. -/
theorem c7_parked_flag (t : Tracker) (az el : ℚ) :
    (trackerPark t).st.is_parked = true
    ∧ (trackerGoto t az el).st.is_parked = t.st.is_parked := by
  exact ⟨rfl, rfl⟩

/-- C8 counterexample.  The input "_" matches none of the dispatch patterns
listed by the claim, yet the handler answers the rotctld info banner, not
"RPRT -4". -/
theorem c8_unlisted_cex :
    matchesListed "_" = false
    ∧ (handleCommand (0, 0) "_").response = some "space-station-rotator"
    ∧ (handleCommand (0, 0) "_").response ≠ some "RPRT -4" := by
  refine ⟨by decide, by decide, by decide⟩

/-- An uncancelled step loop runs all its iterations, emitting one pulse and
one position increment per iteration. -/
theorem moveLoop_no_stop (sign pos : ℤ) (i n : ℕ) :
    moveLoop (fun _ => false) sign pos i n = (pos + n * sign, n) := by
  induction n generalizing pos i with
  | zero => simp [moveLoop]
  | succ n ih =>
    simp only [moveLoop, Bool.false_eq_true, if_false, ih, Prod.mk.injEq]
    refine ⟨?_, trivial⟩
    push_cast
    ring

/-- A step loop whose first cancellation check fires emits nothing. -/
theorem moveLoop_stop_first (stopAt : ℕ → Bool) (sign pos : ℤ) (i n : ℕ)
    (h : stopAt i = true) : moveLoop stopAt sign pos i n = (pos, 0) := by
  cases n <;> simp [moveLoop, h]

/-- An uncancelled `_execute_move` ends exactly at the target step count,
having emitted one pulse per step of the delta. -/
theorem executeMove_no_stop (c : AxisConfig) (pos : ℤ) (tgt : ℚ) :
    (executeMove c (fun _ => false) pos tgt).pos = targetSteps c tgt
    ∧ (executeMove c (fun _ => false) pos tgt).pulses
        = (targetSteps c tgt - pos).natAbs := by
  by_cases h : targetSteps c tgt - pos = 0
  · simp only [executeMove, if_pos h]
    exact ⟨by omega, by omega⟩
  · by_cases hp : 0 < targetSteps c tgt - pos
    · simp only [executeMove, if_neg h, if_pos hp, moveLoop_no_stop]
      exact ⟨by omega, by trivial⟩
    · simp only [executeMove, if_neg h, if_neg hp, moveLoop_no_stop]
      exact ⟨by omega, by trivial⟩

/-- A move whose target step count already equals the position returns at
once, with no pulses and no direction write. -/
theorem executeMove_already_there (c : AxisConfig) (stopAt : ℕ → Bool) (pos : ℤ)
    (tgt : ℚ) (h : pos = targetSteps c tgt) :
    executeMove c stopAt pos tgt = ⟨pos, 0, []⟩ := by
  simp only [executeMove]
  rw [if_pos (by omega)]

/-- A move whose first cancellation check fires emits no pulses and leaves
the position untouched. -/
theorem executeMove_stopped (c : AxisConfig) (stopAt : ℕ → Bool) (pos : ℤ)
    (tgt : ℚ) (h : stopAt 0 = true) :
    (executeMove c stopAt pos tgt).pos = pos
    ∧ (executeMove c stopAt pos tgt).pulses = 0 := by
  simp only [executeMove]
  by_cases h0 : targetSteps c tgt - pos = 0
  · rw [if_pos h0]
    exact ⟨rfl, rfl⟩
  · rw [if_neg h0]
    rw [moveLoop_stop_first _ _ _ _ _ h]
    exact ⟨rfl, rfl⟩

/-- Unfolding equation for a blocking `move_to`. -/
theorem moveTo_blocking (c : AxisConfig) (s : AxisState) (tgt : ℚ) :
    moveTo c s tgt true =
      ⟨⟨(executeMove c (fun _ => s.stop_set) s.position_steps (clampAngle c tgt)).pos,
          s.stop_set⟩,
        (executeMove c (fun _ => s.stop_set) s.position_steps (clampAngle c tgt)).pulses,
        (executeMove c (fun _ => s.stop_set) s.position_steps (clampAngle c tgt)).dirWrites⟩ :=
  rfl

/-- Unfolding equation for a non-blocking `move_to`: the event is cleared
first, so the spawned move runs with the flag down. -/
theorem moveTo_nonblocking (c : AxisConfig) (s : AxisState) (tgt : ℚ) :
    moveTo c s tgt false =
      ⟨⟨(executeMove c (fun _ => false) s.position_steps (clampAngle c tgt)).pos,
          false⟩,
        (executeMove c (fun _ => false) s.position_steps (clampAngle c tgt)).pulses,
        (executeMove c (fun _ => false) s.position_steps (clampAngle c tgt)).dirWrites⟩ :=
  rfl

/-- C3.  After a blocking `move_to` completes without cancellation, a second
`move_to` to the same target computes a zero step delta, emits no pulses,
and leaves the position unchanged. -/
theorem c3_move_to_idempotent (c : AxisConfig) (s : AxisState) (tgt : ℚ)
    (hs : s.stop_set = false) :
    targetSteps c (clampAngle c tgt) - (moveTo c s tgt true).axis.position_steps = 0
    ∧ (moveTo c (moveTo c s tgt true).axis tgt true).pulses = 0
    ∧ (moveTo c (moveTo c s tgt true).axis tgt true).axis.position_steps
        = (moveTo c s tgt true).axis.position_steps := by
  have hfun : (fun _ : ℕ => s.stop_set) = (fun _ : ℕ => false) := by
    funext j
    rw [hs]
  have h1 : (moveTo c s tgt true).axis.position_steps
      = targetSteps c (clampAngle c tgt) := by
    rw [moveTo_blocking, hfun]
    exact (executeMove_no_stop c s.position_steps (clampAngle c tgt)).1
  have h2 : moveTo c (moveTo c s tgt true).axis tgt true =
      ⟨(moveTo c s tgt true).axis, 0, []⟩ := by
    rw [moveTo_blocking, executeMove_already_there _ _ _ _ h1]
  refine ⟨by omega, ?_, ?_⟩
  · rw [h2]
  · rw [h2]

/-- C3 witness at a concrete axis and target. -/
theorem c3_idempotent_witness :
    axisStart.stop_set = false
    ∧ (moveTo cfgUnit (moveTo cfgUnit axisStart 3 true).axis 3 true).pulses = 0 :=
  ⟨rfl, (c3_move_to_idempotent cfgUnit axisStart 3 rfl).2.1⟩

/-- The homing search takes at most its step budget. -/
theorem homeLoop_steps_le (c : AxisConfig) (stopAt : ℕ → Bool) (sw : ℕ → ℤ)
    (pos : ℤ) (i n : ℕ) :
    (homeLoop c stopAt sw pos i n).searchSteps ≤ n := by
  induction n generalizing pos i with
  | zero => simp [homeLoop]
  | succ n ih =>
    simp only [homeLoop]
    split_ifs
    · simp
    · simp
    · simpa using Nat.succ_le_succ (ih (pos - 1) (i + 1))

/-- If the switch oracle never reads low, the homing search reports
failure. -/
theorem homeLoop_no_switch (c : AxisConfig) (stopAt : ℕ → Bool) (sw : ℕ → ℤ)
    (hsw : ∀ j, sw j ≠ 0) (pos : ℤ) (i n : ℕ) :
    (homeLoop c stopAt sw pos i n).ok = false := by
  induction n generalizing pos i with
  | zero => simp [homeLoop]
  | succ n ih =>
    simp only [homeLoop]
    split_ifs with h1 h2
    · rfl
    · exact absurd h2 (hsw i)
    · simpa using ih (pos - 1) (i + 1)

/-- A homing search whose first cancellation check fires does nothing and
fails. -/
theorem homeLoop_stopped (c : AxisConfig) (stopAt : ℕ → Bool) (sw : ℕ → ℤ)
    (pos : ℤ) (n : ℕ) (h : stopAt 0 = true) :
    homeLoop c stopAt sw pos 0 n = ⟨false, pos, 0⟩ := by
  cases n <;> simp [homeLoop, h]

/-- C5.  When the home switch never triggers, `home()` reports failure as a
boolean (it cannot loop forever: the model is a total function of the step
budget), takes at most `max_angle * steps_per_degree * 1.1` search steps,
and a set cancellation flag makes it return at once with no search steps. -/
theorem c5_homing_bounded (c : AxisConfig) (s : AxisState) (sw : ℕ → ℤ)
    (hsw : ∀ i, sw i ≠ 0) (hq : 0 ≤ c.max_angle * stepsPerDegree c) :
    (axisHome c s sw).ok = false
    ∧ ((axisHome c s sw).searchSteps : ℚ)
        ≤ c.max_angle * stepsPerDegree c * (11 / 10)
    ∧ (s.stop_set = true → (axisHome c s sw).searchSteps = 0) := by
  have hx : (0 : ℚ) ≤ c.max_angle * stepsPerDegree c * (11 / 10) :=
    mul_nonneg hq (by norm_num)
  have hfloor : maxHomeSteps c = ⌊c.max_angle * stepsPerDegree c * (11 / 10 : ℚ)⌋ := by
    rw [maxHomeSteps, pyInt, if_pos hx]
  refine ⟨homeLoop_no_switch c _ sw hsw _ _ _, ?_, ?_⟩
  · have h2 := homeLoop_steps_le c (fun _ => s.stop_set) sw s.position_steps 0
      (maxHomeSteps c).toNat
    have h3 : (((axisHome c s sw).searchSteps : ℚ))
        ≤ (((maxHomeSteps c).toNat : ℕ) : ℚ) := by
      exact_mod_cast h2
    have h4 : ((maxHomeSteps c).toNat : ℤ) = maxHomeSteps c :=
      Int.toNat_of_nonneg (by rw [hfloor]; exact Int.floor_nonneg.mpr hx)
    have h5 : (((maxHomeSteps c).toNat : ℕ) : ℚ)
        ≤ c.max_angle * stepsPerDegree c * (11 / 10) := by
      have := Int.floor_le (c.max_angle * stepsPerDegree c * (11 / 10 : ℚ))
      rw [← hfloor] at this
      calc (((maxHomeSteps c).toNat : ℕ) : ℚ) = ((maxHomeSteps c : ℤ) : ℚ) := by
            exact_mod_cast congrArg (fun z : ℤ => (z : ℚ)) h4
        _ ≤ _ := this
    exact h3.trans h5
  · intro hstop
    unfold axisHome
    rw [homeLoop_stopped c _ sw s.position_steps _ (by rw [hstop])]

/-- C5 witness: a concrete axis whose switch oracle never reads low. -/
theorem c5_homing_witness :
    ((1 : ℤ) ≠ 0)
    ∧ (axisHome cfgTiny axisStart (fun _ => 1)).ok = false :=
  ⟨one_ne_zero,
    (c5_homing_bounded cfgTiny axisStart (fun _ => 1) (fun _ => one_ne_zero)
      (by norm_num [cfgTiny, cfgUnit, stepsPerDegree])).1⟩

/-- C10.  After `stop()` the cancellation flag stays set: any blocking
`move_to` emits no pulses and leaves the position and the flag unchanged,
any `home()` fails at once with no search steps, and only a non-blocking
`move_to` clears the flag before moving. -/
theorem c10_stop_flag (c : AxisConfig) (s : AxisState) (tgt : ℚ) (sw : ℕ → ℤ)
    (hs : s.stop_set = true) :
    ((moveTo c s tgt true).pulses = 0
      ∧ (moveTo c s tgt true).axis.position_steps = s.position_steps
      ∧ (moveTo c s tgt true).axis.stop_set = true)
    ∧ ((axisHome c s sw).ok = false ∧ (axisHome c s sw).searchSteps = 0
      ∧ (axisHome c s sw).pos = s.position_steps)
    ∧ (moveTo c s tgt false).axis.stop_set = false := by
  have hstop : (fun _ : ℕ => s.stop_set) 0 = true := hs
  have hm := executeMove_stopped c (fun _ => s.stop_set) s.position_steps
    (clampAngle c tgt) hstop
  have hh := homeLoop_stopped c (fun _ => s.stop_set) sw s.position_steps
    (maxHomeSteps c).toNat hstop
  refine ⟨⟨?_, ?_, ?_⟩, ⟨?_, ?_, ?_⟩, ?_⟩
  · rw [moveTo_blocking]
    exact hm.2
  · rw [moveTo_blocking]
    exact hm.1
  · rw [moveTo_blocking]
    exact hs
  · unfold axisHome
    rw [hh]
  · unfold axisHome
    rw [hh]
  · unfold axisHome
    rw [hh]
  · rw [moveTo_nonblocking]

/-- C10 witness: a stopped axis at a concrete target. -/
theorem c10_stop_witness :
    (stopAxis axisStart).stop_set = true
    ∧ (axisHome cfgTiny (stopAxis axisStart) (fun _ => 1)).ok = false :=
  ⟨rfl, (c10_stop_flag cfgTiny (stopAxis axisStart) 5 (fun _ => 1) rfl).2.1.1⟩

/-- C6.  The coordinator homes elevation first; when it fails azimuth is
never attempted, and the operation reports success exactly when both axes
homed, sets `is_homed` exactly on success, and leaves it false on any
failure. -/
theorem c6_home_both_axes (t : Tracker) (elS azS : ℕ → ℤ)
    (h : t.st.is_homed = false) :
    ((axisHome t.cfg.elCfg t.el elS).ok = false →
      (trackerHome t elS azS).azAttempted = false)
    ∧ ((trackerHome t elS azS).ok = true ↔
      (axisHome t.cfg.elCfg t.el elS).ok = true
        ∧ (axisHome t.cfg.azCfg t.az azS).ok = true)
    ∧ ((trackerHome t elS azS).ok = false →
      (trackerHome t elS azS).t.st.is_homed = false)
    ∧ ((trackerHome t elS azS).t.st.is_homed = true ↔
      (trackerHome t elS azS).ok = true) := by
  simp only [trackerHome]
  split_ifs with h1 h2 <;>
    simp_all [updateState]

/-- Helper for the witnesses: the concrete elevation axis of `tracker0`
never sees its switch low, so its homing attempt fails. -/
theorem tracker0_el_home_fails :
    (axisHome tracker0.cfg.elCfg tracker0.el (fun _ => 1)).ok = false :=
  homeLoop_no_switch tracker0.cfg.elCfg (fun _ => tracker0.el.stop_set)
    (fun _ => 1) (fun _ => one_ne_zero) tracker0.el.position_steps 0
    (maxHomeSteps tracker0.cfg.elCfg).toNat

/-- The unclamped ramp length is nonnegative for positive speed and
acceleration. -/
theorem accelStepsRaw_nonneg (c : AxisConfig) (hmax : 0 < maxSpeedSps c)
    (ha : 0 < accelSps2 c) : 0 ≤ accelStepsRaw c := by
  have h2a : (0 : ℚ) ≤ 2 * accelSps2 c := by linarith
  have hq : (0 : ℚ) ≤ maxSpeedSps c ^ 2 / (2 * accelSps2 c) :=
    div_nonneg (by positivity) h2a
  rw [accelStepsRaw, pyInt, if_pos hq]
  exact Int.floor_nonneg.mpr hq

theorem accelSteps_nonneg (c : AxisConfig) (total : ℕ)
    (h : 0 ≤ accelStepsRaw c) : 0 ≤ accelSteps c total := by
  rw [accelSteps]
  split_ifs with h1
  · exact Int.natCast_nonneg _
  · exact h

theorem accelSteps_le_half (c : AxisConfig) (total : ℕ) :
    accelSteps c total ≤ ((total / 2 : ℕ) : ℤ) := by
  rw [accelSteps]
  split_ifs with h1
  · exact le_refl _
  · omega

/-- The ramp-up region ends no later than the ramp-down region starts. -/
theorem accelSteps_le_decelStart (c : AxisConfig) (total : ℕ) :
    accelSteps c total ≤ decelStart c total := by
  have h1 := accelSteps_le_half c total
  rw [decelStart]
  omega

/-- In the ramp-up region the loop writes the ramp formula. -/
theorem speedAt_ramp (c : AxisConfig) (total : ℕ) (i : ℕ)
    (h : (i : ℤ) < accelSteps c total) :
    speedAt c total i = rampSpeed c i := by
  cases i with
  | zero =>
    have h0 : (0 : ℤ) < accelSteps c total := by exact_mod_cast h
    simp only [speedAt, if_pos h0]
  | succ n =>
    have h0 : ((n : ℤ) + 1) < accelSteps c total := by push_cast at h; exact h
    simp only [speedAt, if_pos h0]

/-- In the ramp-down region the loop writes the deceleration formula. -/
theorem speedAt_decel (c : AxisConfig) (total : ℕ) (i : ℕ)
    (h1 : accelSteps c total ≤ (i : ℤ)) (h2 : decelStart c total ≤ (i : ℤ)) :
    speedAt c total i = decelSpeed c total i := by
  cases i with
  | zero =>
    have hn : ¬ ((0 : ℤ) < accelSteps c total) := by
      push_cast at h1
      omega
    have hd : decelStart c total ≤ (0 : ℤ) := by exact_mod_cast h2
    simp only [speedAt, if_neg hn, if_pos hd]
  | succ n =>
    have hn : ¬ (((n : ℤ) + 1) < accelSteps c total) := by push_cast at h1; omega
    have hd : decelStart c total ≤ (n : ℤ) + 1 := by push_cast at h2; exact h2
    simp only [speedAt, if_neg hn, if_pos hd]

/-- Between the two ramps the loop never rewrites `current_speed`, so the
carried value is the closed plateau form. -/
theorem speedAt_plateau (c : AxisConfig) (total : ℕ)
    (h0 : 0 ≤ accelSteps c total) :
    ∀ i : ℕ, accelSteps c total ≤ (i : ℤ) → (i : ℤ) < decelStart c total →
      speedAt c total i = plateauSpeed c total := by
  intro i
  induction i with
  | zero =>
    intro h1 h2
    have hA : accelSteps c total = 0 := by
      push_cast at h1
      omega
    have hn1 : ¬ ((0 : ℤ) < accelSteps c total) := by omega
    have hn2 : ¬ (decelStart c total ≤ 0) := by
      push_cast at h2
      omega
    simp only [speedAt, if_neg hn1, if_neg hn2, plateauSpeed, if_pos hA]
  | succ n ih =>
    intro h1 h2
    have hn1 : ¬ (((n : ℤ) + 1) < accelSteps c total) := by push_cast at h1; omega
    have hn2 : ¬ (decelStart c total ≤ (n : ℤ) + 1) := by push_cast at h2; omega
    by_cases hc : accelSteps c total ≤ (n : ℤ)
    · have hlt : ((n : ℕ) : ℤ) < decelStart c total := by push_cast at h2 ⊢; omega
      simp only [speedAt, if_neg hn1, if_neg hn2]
      exact ih hc hlt
    · have hA : accelSteps c total = (n : ℤ) + 1 := by push_cast at h1; omega
      have hAne : accelSteps c total ≠ 0 := by omega
      simp only [speedAt, if_neg hn1, if_neg hn2]
      rw [speedAt_ramp c total n (by omega), rampSpeed, plateauSpeed, if_neg hAne, hA]
      norm_num

theorem rampSpeed_pos (c : AxisConfig) (i : ℕ) (hmax : 0 < maxSpeedSps c)
    (ha : 0 < accelSps2 c) : 0 < rampSpeed c i := by
  have ha' : (0 : ℝ) < ((accelSps2 c : ℚ) : ℝ) := by exact_mod_cast ha
  have hm' : (0 : ℝ) < ((maxSpeedSps c : ℚ) : ℝ) := by exact_mod_cast hmax
  rw [rampSpeed]
  refine lt_min ?_ hm'
  refine Real.sqrt_pos.mpr ?_
  exact mul_pos (mul_pos two_pos ha') (by positivity)

theorem decelSpeed_pos (c : AxisConfig) (total i : ℕ) :
    0 < decelSpeed c total i :=
  lt_of_lt_of_le (by norm_num) (le_max_right _ _)

theorem plateauSpeed_pos (c : AxisConfig) (total : ℕ)
    (h0 : 0 ≤ accelSteps c total) (hmax : 0 < maxSpeedSps c)
    (ha : 0 < accelSps2 c) : 0 < plateauSpeed c total := by
  have ha' : (0 : ℝ) < ((accelSps2 c : ℚ) : ℝ) := by exact_mod_cast ha
  have hm' : (0 : ℝ) < ((maxSpeedSps c : ℚ) : ℝ) := by exact_mod_cast hmax
  rw [plateauSpeed]
  split_ifs with h
  · have h100 : (100 : ℚ) ≤ startSpeed c := le_max_right _ _
    have hp : (0 : ℚ) < startSpeed c := lt_of_lt_of_le (by norm_num) h100
    exact_mod_cast hp
  · refine lt_min ?_ hm'
    refine Real.sqrt_pos.mpr ?_
    have hpos : (0 : ℤ) < accelSteps c total := lt_of_le_of_ne h0 (Ne.symm h)
    have hc : (0 : ℝ) < ((accelSteps c total : ℤ) : ℝ) := by exact_mod_cast hpos
    exact mul_pos (mul_pos two_pos ha') hc

/-- The instantaneous speed is positive on every step. -/
theorem speedAt_pos (c : AxisConfig) (total i : ℕ)
    (hmax : 0 < maxSpeedSps c) (ha : 0 < accelSps2 c) :
    0 < speedAt c total i := by
  have h0 : 0 ≤ accelSteps c total :=
    accelSteps_nonneg c total (accelStepsRaw_nonneg c hmax ha)
  by_cases hr : (i : ℤ) < accelSteps c total
  · rw [speedAt_ramp c total i hr]
    exact rampSpeed_pos c i hmax ha
  · by_cases hd : decelStart c total ≤ (i : ℤ)
    · rw [speedAt_decel c total i (by omega) hd]
      exact decelSpeed_pos c total i
    · rw [speedAt_plateau c total h0 i (by omega) (by omega)]
      exact plateauSpeed_pos c total h0 hmax ha

theorem rampSpeed_mono (c : AxisConfig) (ha : 0 < accelSps2 c) {i j : ℕ}
    (hij : i ≤ j) : rampSpeed c i ≤ rampSpeed c j := by
  have ha' : (0 : ℝ) ≤ ((accelSps2 c : ℚ) : ℝ) := by exact_mod_cast ha.le
  have h2a : (0 : ℝ) ≤ 2 * ((accelSps2 c : ℚ) : ℝ) := by linarith
  refine min_le_min ?_ le_rfl
  refine Real.sqrt_le_sqrt ?_
  have hij' : ((i : ℝ) + 1) ≤ ((j : ℝ) + 1) := by
    have h : (i : ℝ) ≤ (j : ℝ) := by exact_mod_cast hij
    linarith
  exact mul_le_mul_of_nonneg_left hij' h2a

theorem decelSpeed_anti (c : AxisConfig) (total : ℕ) (ha : 0 < accelSps2 c)
    {i j : ℕ} (hij : i ≤ j) :
    decelSpeed c total j ≤ decelSpeed c total i := by
  have ha' : (0 : ℝ) ≤ ((accelSps2 c : ℚ) : ℝ) := by exact_mod_cast ha.le
  have h2a : (0 : ℝ) ≤ 2 * ((accelSps2 c : ℚ) : ℝ) := by linarith
  refine max_le_max ?_ le_rfl
  refine Real.sqrt_le_sqrt ?_
  have hij' : ((total : ℝ) - (j : ℝ)) ≤ ((total : ℝ) - (i : ℝ)) := by
    have h : (i : ℝ) ≤ (j : ℝ) := by exact_mod_cast hij
    linarith
  exact mul_le_mul_of_nonneg_left hij' h2a

/-- C2 amended.  For positive inputs the delay table has one entry per step,
every delay is positive, delays are non-increasing through the ramp-up and
non-decreasing through the ramp-down; the plateau is constant, but at
`1 / plateauSpeed` — the speed reached by the last ramp assignment — which
is only at least `1 / max_step_speed` (equality requires
`max_step_speed^2 / (2 accel)` to be a whole number), not exactly it. -/
theorem c2_delay_profile (c : AxisConfig) (total : ℕ) (ht : 0 < total)
    (hmax : 0 < maxSpeedSps c) (ha : 0 < accelSps2 c) :
    (delayProfile c total).length = total
    ∧ (∀ i : ℕ, i < total → 0 < delayAt c total i)
    ∧ (∀ i j : ℕ, i ≤ j → (j : ℤ) < accelSteps c total →
        delayAt c total j ≤ delayAt c total i)
    ∧ (∀ i j : ℕ, decelStart c total ≤ (i : ℤ) → i ≤ j → j < total →
        delayAt c total i ≤ delayAt c total j)
    ∧ (∀ i : ℕ, accelSteps c total ≤ (i : ℤ) → (i : ℤ) < decelStart c total →
        delayAt c total i = 1 / plateauSpeed c total)
    ∧ (accelSteps c total ≠ 0 →
        1 / ((maxSpeedSps c : ℚ) : ℝ) ≤ 1 / plateauSpeed c total) := by
  have h0 : 0 ≤ accelSteps c total :=
    accelSteps_nonneg c total (accelStepsRaw_nonneg c hmax ha)
  refine ⟨?_, ?_, ?_, ?_, ?_, ?_⟩
  · simp [delayProfile]
  · intro i _
    exact one_div_pos.mpr (speedAt_pos c total i hmax ha)
  · intro i j hij hj
    have hi : (i : ℤ) < accelSteps c total := by
      have h : (i : ℤ) ≤ (j : ℤ) := by exact_mod_cast hij
      omega
    rw [delayAt, delayAt, speedAt_ramp c total i hi, speedAt_ramp c total j hj]
    exact one_div_le_one_div_of_le (rampSpeed_pos c i hmax ha)
      (rampSpeed_mono c ha hij)
  · intro i j hi hij hj
    have hdj : decelStart c total ≤ (j : ℤ) := by
      have h : (i : ℤ) ≤ (j : ℤ) := by exact_mod_cast hij
      omega
    have hai : accelSteps c total ≤ (i : ℤ) :=
      le_trans (accelSteps_le_decelStart c total) hi
    have haj : accelSteps c total ≤ (j : ℤ) :=
      le_trans (accelSteps_le_decelStart c total) hdj
    rw [delayAt, delayAt, speedAt_decel c total i hai hi,
      speedAt_decel c total j haj hdj]
    exact one_div_le_one_div_of_le (decelSpeed_pos c total j)
      (decelSpeed_anti c total ha hij)
  · intro i h1 h2
    rw [delayAt, speedAt_plateau c total h0 i h1 h2]
  · intro hne
    refine one_div_le_one_div_of_le (plateauSpeed_pos c total h0 hmax ha) ?_
    rw [plateauSpeed, if_neg hne]
    exact min_le_right _ _

theorem maxSpeedSps_cfgSlow : maxSpeedSps cfgSlow = 3 := by
  norm_num [maxSpeedSps, stepsPerDegree, cfgSlow, cfgUnit]

theorem accelSps2_cfgSlow : accelSps2 cfgSlow = 1 := by
  norm_num [accelSps2, stepsPerDegree, cfgSlow, cfgUnit]

theorem accelSteps_cfgSlow : accelSteps cfgSlow 20 = 4 := by
  have hraw : accelStepsRaw cfgSlow = 4 := by
    rw [accelStepsRaw, maxSpeedSps_cfgSlow, accelSps2_cfgSlow, pyInt,
      if_pos (by norm_num), Int.floor_eq_iff]
    norm_num
  rw [accelSteps, hraw]
  norm_num

theorem decelStart_cfgSlow : decelStart cfgSlow 20 = 16 := by
  rw [decelStart, accelSteps_cfgSlow]
  norm_num

/-- C2 counterexample.  In the concrete move of 20 steps with
`max_step_speed = 3` and `accel = 1`, step 4 lies on the plateau
(`accel_steps = 4`, `decel_start = 16`), yet its delay is `1 / sqrt 8`, not
`1 / max_step_speed = 1 / 3`. -/
theorem c2_plateau_cex :
    accelSteps cfgSlow 20 ≤ (4 : ℤ) ∧ (4 : ℤ) < decelStart cfgSlow 20
    ∧ delayAt cfgSlow 20 4 ≠ 1 / ((maxSpeedSps cfgSlow : ℚ) : ℝ) := by
  have h8 : Real.sqrt 8 ≤ 3 := by
    rw [show (3 : ℝ) = Real.sqrt 9 by
      rw [show (9 : ℝ) = 3 ^ 2 by norm_num, Real.sqrt_sq (by norm_num : (0:ℝ) ≤ 3)]]
    exact Real.sqrt_le_sqrt (by norm_num)
  have hs8 : Real.sqrt 8 ≠ 3 := by
    intro h
    have h2 := Real.sq_sqrt (by norm_num : (0:ℝ) ≤ 8)
    rw [h] at h2
    norm_num at h2
  have hplateau : plateauSpeed cfgSlow 20 = Real.sqrt 8 := by
    rw [plateauSpeed, if_neg (by rw [accelSteps_cfgSlow]; norm_num),
      accelSteps_cfgSlow, accelSps2_cfgSlow, maxSpeedSps_cfgSlow]
    norm_num
    exact h8
  have hd : delayAt cfgSlow 20 4 = 1 / Real.sqrt 8 := by
    rw [delayAt, speedAt_plateau cfgSlow 20
      (by rw [accelSteps_cfgSlow]; norm_num) 4
      (by rw [accelSteps_cfgSlow]; norm_num)
      (by rw [decelStart_cfgSlow]; norm_num), hplateau]
  refine ⟨by rw [accelSteps_cfgSlow], by rw [decelStart_cfgSlow]; norm_num, ?_⟩
  rw [hd, maxSpeedSps_cfgSlow]
  intro h
  rw [show (((3 : ℚ) : ℝ)) = (3 : ℝ) by norm_num] at h
  rw [div_eq_div_iff (Real.sqrt_pos.mpr (by norm_num : (0:ℝ) < 8)).ne'
    (by norm_num : (3 : ℝ) ≠ 0)] at h
  apply hs8
  linarith

/-- C2 witness: the amended profile theorem applied to the concrete
20-step move. -/
theorem c2_delay_witness :
    0 < (20 : ℕ) ∧ (delayProfile cfgSlow 20).length = 20 :=
  ⟨by decide,
    (c2_delay_profile cfgSlow 20 (by decide)
      (by norm_num [maxSpeedSps, stepsPerDegree, cfgSlow, cfgUnit])
      (by norm_num [accelSps2, stepsPerDegree, cfgSlow, cfgUnit])).1⟩

/-- C1 amended.  The code computes the ramp length as
`int(max_step_speed^2 / (2 accel))` — the starting speed does not enter and
there is no floor at one — clamped to half the move, and the ramp-up speed
at index `i` is `sqrt(2 accel (i+1))` clamped to `max_step_speed`. -/
theorem c1_ramp_formula (c : AxisConfig) (total : ℕ)
    (hmax : 0 < maxSpeedSps c) (ha : 0 < accelSps2 c) :
    accelSteps c total
      = min ⌊maxSpeedSps c ^ 2 / (2 * accelSps2 c)⌋ (((total / 2 : ℕ) : ℤ))
    ∧ (∀ i : ℕ, (i : ℤ) < accelSteps c total →
        speedAt c total i
          = min (Real.sqrt (2 * ((accelSps2 c : ℚ) : ℝ) * ((i : ℝ) + 1)))
              ((maxSpeedSps c : ℚ) : ℝ)) := by
  constructor
  · have h2a : (0 : ℚ) ≤ 2 * accelSps2 c := by linarith
    have hq : (0 : ℚ) ≤ maxSpeedSps c ^ 2 / (2 * accelSps2 c) :=
      div_nonneg (by positivity) h2a
    rw [accelSteps, accelStepsRaw, pyInt, if_pos hq]
    split_ifs with h1
    · rw [min_eq_right]
      omega
    · rw [min_eq_left]
      omega
  · intro i hi
    rw [speedAt_ramp c total i hi, rampSpeed]

theorem maxSpeedSps_cfgUnit : maxSpeedSps cfgUnit = 100 := by
  norm_num [maxSpeedSps, stepsPerDegree, cfgUnit]

theorem accelSps2_cfgUnit : accelSps2 cfgUnit = 1 := by
  norm_num [accelSps2, stepsPerDegree, cfgUnit]

theorem accelSteps_cfgUnit : accelSteps cfgUnit 20000 = 5000 := by
  have hraw : accelStepsRaw cfgUnit = 5000 := by
    rw [accelStepsRaw, maxSpeedSps_cfgUnit, accelSps2_cfgUnit, pyInt,
      if_pos (by norm_num), Int.floor_eq_iff]
    norm_num
  rw [accelSteps, hraw]
  norm_num

/-- C1 counterexample.  For the concrete axis with `max_step_speed = 100`
and `accel = 1` on a 20000-step move, the code's ramp length is 5000 while
the spec's formula gives 1, and the code's speed at ramp index 0 is
`sqrt 2` while the spec's formula gives 100. -/
theorem c1_spec_formula_cex :
    accelSteps cfgUnit 20000 = 5000
    ∧ specRampSteps cfgUnit 20000 = 1
    ∧ speedAt cfgUnit 20000 0 = Real.sqrt 2
    ∧ specRampSpeedAt cfgUnit 0 = 100
    ∧ Real.sqrt 2 ≠ 100 := by
  have hs2 : Real.sqrt 2 ≠ 100 := by
    intro h
    have h2 := Real.sq_sqrt (by norm_num : (0:ℝ) ≤ 2)
    rw [h] at h2
    norm_num at h2
  have h2le : Real.sqrt 2 ≤ 100 := by
    rw [show (100 : ℝ) = Real.sqrt (100 ^ 2) from
      (Real.sqrt_sq (by norm_num : (0:ℝ) ≤ 100)).symm]
    exact Real.sqrt_le_sqrt (by norm_num)
  refine ⟨accelSteps_cfgUnit, ?_, ?_, ?_, hs2⟩
  · rw [specRampSteps, maxSpeedSps_cfgUnit, accelSps2_cfgUnit, pyInt]
    norm_num
  · rw [speedAt_ramp cfgUnit 20000 0 (by rw [accelSteps_cfgUnit]; norm_num),
      rampSpeed, accelSps2_cfgUnit, maxSpeedSps_cfgUnit]
    norm_num
    exact h2le
  · have h100 : Real.sqrt 10000 = 100 := by
      rw [show (10000 : ℝ) = 100 ^ 2 by norm_num,
        Real.sqrt_sq (by norm_num : (0:ℝ) ≤ 100)]
    rw [specRampSpeedAt, accelSps2_cfgUnit, maxSpeedSps_cfgUnit]
    norm_num [h100]

/-- C1 witness: the amended formula theorem applied to the concrete axis. -/
theorem c1_ramp_witness :
    0 < accelSps2 cfgUnit
    ∧ accelSteps cfgUnit 20000
        = min ⌊maxSpeedSps cfgUnit ^ 2 / (2 * accelSps2 cfgUnit)⌋
            (((20000 / 2 : ℕ) : ℤ)) :=
  ⟨by norm_num [accelSps2, stepsPerDegree, cfgUnit],
    (c1_ramp_formula cfgUnit 20000
      (by norm_num [maxSpeedSps, stepsPerDegree, cfgUnit])
      (by norm_num [accelSps2, stepsPerDegree, cfgUnit])).1⟩

/-- C8 amended.  Every line matching none of the guards actually present in
the dispatch chain — the spec's table plus the info command and the
capability dump — is answered exactly "RPRT -4", with no effect on the
tracker and the connection left open. -/
theorem c8_unknown_command (pos : ℚ × ℚ) (cmd : String)
    (h : matchesCode (pyStrip cmd) = false) :
    handleCommand pos cmd = ⟨some "RPRT -4", Effect.noEff⟩ := by
  simp only [matchesCode, matchesListed, Bool.or_eq_false_iff] at h
  obtain ⟨⟨⟨⟨⟨⟨⟨⟨⟨⟨⟨⟨⟨⟨⟨⟨⟨⟨⟨e1, e2⟩, e3⟩, e4⟩, e5⟩, e6⟩, e7⟩, e8⟩, e9⟩,
    e10⟩, e11⟩, e12⟩, e13⟩, e14⟩, e15⟩, e16⟩, e17⟩, e18⟩, e19⟩, e20⟩ := h
  simp only [handleCommand]
  rw [if_neg (by simp only [e1]; exact Bool.false_ne_true),
    if_neg (by
      simp only [e2, e3, e4, Bool.or_self, Bool.or_false, Bool.false_or]
      exact Bool.false_ne_true),
    if_neg (by
      simp only [e5, e6, e7, Bool.or_self, Bool.or_false, Bool.false_or]
      exact Bool.false_ne_true),
    if_neg (by simp only [e8]; exact Bool.false_ne_true),
    if_neg (by
      simp only [e9, e10, Bool.or_self, Bool.or_false, Bool.false_or]
      exact Bool.false_ne_true),
    if_neg (by
      simp only [e11, e12, Bool.or_self, Bool.or_false, Bool.false_or]
      exact Bool.false_ne_true),
    if_neg (by
      simp only [e13, e14, Bool.or_self, Bool.or_false, Bool.false_or]
      exact Bool.false_ne_true),
    if_neg (by
      simp only [e17, e18, Bool.or_self, Bool.or_false, Bool.false_or]
      exact Bool.false_ne_true),
    if_neg (by
      simp only [e19, e20, Bool.or_self, Bool.or_false, Bool.false_or]
      exact Bool.false_ne_true),
    if_neg (by
      simp only [e15, e16, Bool.or_self, Bool.or_false, Bool.false_or]
      exact Bool.false_ne_true)]

/-- C8 witness: a concrete unknown command. -/
theorem c8_unknown_witness :
    matchesCode (pyStrip "bogus") = false
    ∧ handleCommand (0, 0) "bogus" = ⟨some "RPRT -4", Effect.noEff⟩ :=
  ⟨by decide, c8_unknown_command (0, 0) "bogus" (by decide)⟩

/-- C6 witness: a concrete tracker whose elevation switch never triggers. -/
theorem c6_home_witness :
    tracker0.st.is_homed = false
    ∧ (trackerHome tracker0 (fun _ => 1) (fun _ => 1)).azAttempted = false :=
  ⟨rfl, (c6_home_both_axes tracker0 (fun _ => 1) (fun _ => 1) rfl).1
    tracker0_el_home_fails⟩

end Station
